import Mathlib

/-!
Shallow embedding of the poker_study_tool preflop decision engine
(src/decision_engine.py together with the pieces of
src/poker_study_tool.py it imports: hand_class,
general_concept_analysis, HandState).

Modelling conventions:
* Python strings are Lean `String`s; the ASCII-only case conversions the
  program performs are modelled by ASCII case maps.
* Python floats are modelled as `ℚ`; every literal the engine multiplies
  and compares (1.2, 1.1, 0.95, ...) is an exact decimal, and no product
  of these factors comes close enough to a comparison threshold for
  binary-float rounding to flip a branch.
* The metadata dict (`Dict[str, Optional[str]]`, in practice also holding
  ints and bools) is an association list of `PyVal`s.
* A raised-and-caught exception is modelled by `Option` (`none` = raised);
  the fatal load failure is an `Except`.
-/

/-- A Python value as it appears in the metadata mapping: the annotation
says `Optional[str]` but callers also pass ints and bools. -/
inductive PyVal where
  | vstr (s : String)
  | vint (n : Int)
  | vbool (b : Bool)
  | vnone
  deriving BEq, DecidableEq

/-- ASCII lower-casing of one character (the program only lower-cases
ASCII action words and metadata tokens). -/
def lcChar (c : Char) : Char :=
  if 'A' ≤ c ∧ c ≤ 'Z' then Char.ofNat (c.toNat + 32) else c

/-- ASCII upper-casing of one character. -/
def ucChar (c : Char) : Char :=
  if 'a' ≤ c ∧ c ≤ 'z' then Char.ofNat (c.toNat - 32) else c

/-- Python str.lower for the ASCII strings this program handles. -/
def sLower (s : String) : String := String.mk (s.toList.map lcChar)

/-- Python str.upper for the ASCII strings this program handles. -/
def sUpper (s : String) : String := String.mk (s.toList.map ucChar)

/-- Whitespace characters stripped by Python str.strip(). -/
def isWS (c : Char) : Bool :=
  c == ' ' || c == '\t' || c == '\n' || c == '\r' || c == '\x0b' || c == '\x0c'

/-- Python str.strip(). -/
def sTrim (s : String) : String :=
  String.mk (((s.toList.dropWhile isWS).reverse.dropWhile isWS).reverse)

/-- String reversal (Python s[::-1]). -/
def sRev (s : String) : String := String.mk s.toList.reverse

/-- `sub` occurs as a contiguous substring (Python `sub in s`). -/
def listContainsSub (sub : List Char) : List Char → Bool
  | [] => sub.isEmpty
  | c :: rest => sub.isPrefixOf (c :: rest) || listContainsSub sub rest

/-- Python `sub in s` on strings. -/
def strContains (s sub : String) : Bool := listContainsSub sub.toList s.toList

/-- Python s.startswith(p). -/
def sStartsWith (s p : String) : Bool := p.toList.isPrefixOf s.toList

/-- Python s.endswith(p). -/
def sEndsWith (s p : String) : Bool := p.toList.reverse.isPrefixOf s.toList.reverse

/-- Value of a run of decimal digits. -/
def digitsToNat (cs : List Char) : Nat := cs.foldl (fun a c => a * 10 + (c.toNat - 48)) 0

/-- All characters are decimal digits. -/
def allDigits (cs : List Char) : Bool := cs.all (fun c => c.isDigit)

/-- Strip a leading sign, returning (isNegative, rest). -/
def splitSign : List Char → Bool × List Char
  | '-' :: r => (true, r)
  | '+' :: r => (false, r)
  | r => (false, r)

/-- Python float(str) restricted to plain decimal notation (optional sign,
digits, at most one dot, at least one digit). Exponent, inf/nan and
underscore forms are outside the model; none occur in this program's
tables or metadata, and all of them also leave the engine's behavior on
the no-parse path. -/
def pyFloatOfStr (s : String) : Option ℚ :=
  let (neg, cs) := splitSign (sTrim s).toList
  let ip := cs.takeWhile (fun c => c != '.')
  let q? : Option ℚ :=
    match cs.dropWhile (fun c => c != '.') with
    | [] => if allDigits ip && !ip.isEmpty then some (digitsToNat ip : ℚ) else none
    | _ :: fp =>
        if allDigits ip && allDigits fp && !(ip.isEmpty && fp.isEmpty) then
          some ((digitsToNat ip : ℚ) + (digitsToNat fp : ℚ) / (10 : ℚ) ^ fp.length)
        else none
  q?.map (fun q => if neg then -q else q)

/-- Python int(str): optional sign and digits only. -/
def pyIntOfStr (s : String) : Option Int :=
  let (neg, cs) := splitSign (sTrim s).toList
  if allDigits cs && !cs.isEmpty then
    some (if neg then -(digitsToNat cs : Int) else (digitsToNat cs : Int))
  else none

/-- Python truthiness of a metadata value. -/
def pyTruthy : PyVal → Bool
  | .vstr s => !s.isEmpty
  | .vint n => n != 0
  | .vbool b => b
  | .vnone => false

/-- Truthiness of `dict.get` output (absent key → None → falsy). -/
def pyTruthyOpt : Option PyVal → Bool
  | none => false
  | some v => pyTruthy v

/-- Python str(v). -/
def pyStr : PyVal → String
  | .vstr s => s
  | .vint n => toString n
  | .vbool b => if b then "True" else "False"
  | .vnone => "None"

/-- Python int(v); `none` models a raised TypeError/ValueError. -/
def pyInt : PyVal → Option Int
  | .vstr s => pyIntOfStr s
  | .vint n => some n
  | .vbool b => some (if b then 1 else 0)
  | .vnone => none

/-- Truncation toward zero: Python int(<float>). -/
def truncQ (q : ℚ) : Int := Int.tdiv q.num q.den

/-- The metadata mapping; keys are unique as in a Python dict. -/
abbrev PyDict := List (String × PyVal)

/-- Python dict.get(k) (None when the key is absent). -/
def dget (m : PyDict) (k : String) : Option PyVal := m.lookup k

/-- Python dict.get(k, d). -/
def dgetD (m : PyDict) (k : String) (d : PyVal) : PyVal := (dget m k).getD d

/-- The HandState dataclass from poker_study_tool.py (the engine reads
hero_hand, position, effective_bb and opener; board and pot are carried
but unused by recommend_preflop). -/
structure HandState where
  hero_hand : String
  position : String
  effective_bb : ℚ
  opener : String
  board : Option (List String) := none
  pot : Option ℚ := none

/-- Python h.rstrip("OS"): drop trailing 'O'/'S' characters. -/
def rstripOS (s : String) : String :=
  String.mk ((s.toList.reverse.dropWhile (fun c => c == 'O' || c == 'S')).reverse)

/-- The connector rank pairs of hand_class. -/
def connectors : List String := ["98", "87", "76", "65", "54"]

/-- The non-pair branch of hand_class (everything after the pair checks). -/
def hcNonPair (rp : String) : String :=
  if (["AK", "AQ"] : List String).contains rp then "premium"
  else if (["KQ", "QJ", "JT", "JQ", "KJ"] : List String).contains rp then "strong broadway"
  else if connectors.contains (sRev rp) || connectors.contains rp then "suited connector"
  else "weak offsuit"

/-- hand_class from poker_study_tool.py. -/
def hand_class (hand : String) : String :=
  let rp := rstripOS (sUpper hand)
  match rp.toList with
  | [a, b] =>
      if a = b then
        if (["AA", "KK", "QQ"] : List String).contains rp then "premium"
        else if (["JJ", "TT", "99", "88", "77"] : List String).contains rp then "strong pair"
        else "small pair"
      else hcNonPair rp
  | _ => hcNonPair rp

/-- classify_stack_bucket from poker_study_tool.py. -/
def classify_stack_bucket (bb : ℚ) : String :=
  if bb ≤ 10 then "short" else if bb ≤ 25 then "medium" else "deep"

/-- determine_position_group from poker_study_tool.py. -/
def determine_position_group (pos : String) : String :=
  let p := sUpper pos
  if (["UTG", "UTG1", "UTG2", "HJ"] : List String).contains p then "early"
  else if (["CO", "BTN"] : List String).contains p then "late"
  else if (["SB", "BB"] : List String).contains p then "blinds"
  else "middle"

/-- The stack-depth sentence of general_concept_analysis (the `base`
local of the source). -/
def gcaBase (bucket : String) : String :=
  if bucket = "short" then
    "At short stacks (≤10bb), jam or fold decisions dominate; flatting is rare."
  else if bucket = "medium" then
    "At medium stacks (10–25bb), jam/fold plays are common, but small raises and occasional flats may appear."
  else
    "At deep stacks (≥25bb), a wider range of actions (open, 3‑bet, flat) becomes viable."

/-- The position sentence of general_concept_analysis (the `position_note`
local of the source). -/
def gcaPosition (pos_group : String) : String :=
  if pos_group = "early" then
    "Being in an early position, ranges are tighter and dominated by premiums and strong broadways."
  else if pos_group = "late" then
    "In a late position, ranges widen considerably, adding suited connectors and weaker broadways."
  else if pos_group = "blinds" then
    "In the blinds, one often defends a wide range against opens but is cautious out of position."
  else
    "From a middle position, one plays a moderately tight range with selected speculative hands."

/-- The hand-type sentence of general_concept_analysis (the `hand_note`
local of the source). -/
def gcaHand (hand_type : String) : String :=
  if hand_type = "premium" then
    "Premium hands almost always justify aggressive actions: raising or jamming."
  else if hand_type = "strong pair" then
    "Strong pairs are typically good for raising or jamming, especially against earlier position opens."
  else if hand_type = "small pair" then
    "Small pairs often become jam candidates at short stacks, or used for set mining at deeper stacks."
  else if hand_type = "strong broadway" then
    "Strong broadway hands are near the top of your opening range; solvers mix between calling, raising and folding based on ICM pressure."
  else if hand_type = "suited connector" then
    "Suited connectors gain value in multi‑way pots and are more commonly played from late position with deeper stacks."
  else
    "Weaker offsuit hands are typically folded except when defending the big blind or exploiting short stacks."

/-- general_concept_analysis from poker_study_tool.py (the narrative
fallback; template strings copied verbatim from the source). -/
def general_concept_analysis (state : HandState) : String :=
  gcaBase (classify_stack_bucket state.effective_bb) ++ " " ++
    gcaPosition (determine_position_group state.position) ++ " " ++
    gcaHand (hand_class state.hero_hand)

/-- The players_left parsing inside compute_icm_pressure's try-block.
Outer `none` models a raised (and later caught) exception; `some none`
models players_left remaining None. -/
def parsePlayersLeft : Option PyVal → Option (Option Int)
  | none => some none
  | some .vnone => some none
  | some (.vstr s) =>
      if strContains s "/" then
        (pyIntOfStr (sTrim (String.mk (s.toList.takeWhile (fun c => c != '/'))))).map some
      else
        (pyFloatOfStr s).map (fun q => some (truncQ q))
  | some (.vint n) => some (some n)
  | some (.vbool b) => some (some (if b then 1 else 0))

/-- The sequenced players_left / places_paid parse of the try-block
(outer none = an exception was raised somewhere inside the block, in
which case the whole block contributes nothing). -/
def bubbleParse (meta : PyDict) : Option (Option Int × Int) :=
  (parsePlayersLeft (dget meta "players_left")).bind
    (fun pl => (pyInt (dgetD meta "places_paid" (.vint 0))).map (fun pp => (pl, pp)))

/-- The bubble-distance multiplier contributed by the try-block of
compute_icm_pressure; 1 when the block raises or yields no distance. -/
def bubbleFactor (meta : PyDict) : ℚ :=
  match bubbleParse meta with
  | none => 1
  | some (none, _) => 1
  | some (some n, pp) =>
      if pp > 0 then
        if n - pp ≤ 6 then 6/5 else if n - pp ≤ 18 then 11/10 else 1
      else 1

/-- The re-entry multiplier of compute_icm_pressure. -/
def reentryFactor (meta : PyDict) : ℚ :=
  if strContains (sLower (pyStr (dgetD meta "reentry" (.vstr "")))) "unlimited" ||
      strContains (sLower (pyStr (dgetD meta "reentry" (.vstr "")))) "multi" then 9/10 else 1

/-- The bubble-protection multiplier of compute_icm_pressure. -/
def protectionFactor (meta : PyDict) : ℚ :=
  if pyTruthyOpt (dget meta "bubble_protection") then 19/20 else 1

/-- The bounty/PKO multiplier of compute_icm_pressure. -/
def bountyFactor (meta : PyDict) : ℚ :=
  if pyTruthyOpt (dget meta "bounty_flag") || pyTruthyOpt (dget meta "is_pko") then 19/20 else 1

/-- The table-type multiplier of compute_icm_pressure (only applied to
string values, per the isinstance check). -/
def tableTypeFactor (meta : PyDict) : ℚ :=
  match dget meta "table_type" with
  | some (.vstr s) =>
      if sStartsWith (sTrim s) "6" then 19/20
      else if sStartsWith (sTrim s) "7" then 49/50
      else 1
  | _ => 1

/-- compute_icm_pressure from decision_engine.py. The sequential `*=`
updates starting from 1.0 are written as the equal left-associated
product of the five factors. -/
def compute_icm_pressure (meta : PyDict) : ℚ :=
  if meta.isEmpty then 1
  else bubbleFactor meta * reentryFactor meta * protectionFactor meta * bountyFactor meta *
    tableTypeFactor meta

/-- compute_stack_bucket from decision_engine.py. -/
def compute_stack_bucket (bb : ℚ) : String :=
  if bb < 10 then "<10" else if bb < 20 then "10-20" else if bb < 40 then "20-40" else "40+"

/-- The vs_situation heuristic inlined in recommend_preflop. -/
def vsSituation (opener : String) : String :=
  if sTrim opener = "" then "unopened"
  else if strContains (sLower opener) "open" || strContains (sLower opener) "raise" then "vs_open"
  else "unopened"

/-- A strategy-table key (position, stack_bb_bucket, vs_situation, hand_class). -/
structure RKey where
  position : String
  bucket : String
  vs : String
  hclass : String
  deriving BEq, DecidableEq

/-- The loaded range table: rows in file order, keyed by RKey. -/
abbrev RangeTable := List (RKey × (String × String))

/-- pandas `key in table.index` / `table.loc[key]` for a unique-keyed
table: the first row with the given key. -/
def tlookup (t : RangeTable) (k : RKey) : Option (String × String) := t.lookup k

/-- The lookup key recommend_preflop derives from the hand state. -/
def rKey (state : HandState) : RKey :=
  ⟨state.position, compute_stack_bucket state.effective_bb, vsSituation state.opener,
    hand_class state.hero_hand⟩

/-- Python f-string rendering of the effective stack: a float renders with
a trailing ".0" when integral. Non-integral stacks fall back to the exact
rational rendering; no claim depends on that case. -/
def showBB (q : ℚ) : String :=
  if q.den = 1 then toString q.num ++ ".0" else toString q

/-- Round to the nearest integer, ties to even (the rounding of Python's
"%.1f" applied at the exact rational value). -/
def rndHalfEven (q : ℚ) : Int :=
  if q - (Rat.floor q : ℚ) < 1/2 then Rat.floor q
  else if 1/2 < q - (Rat.floor q : ℚ) then Rat.floor q + 1
  else if Rat.floor q % 2 = 0 then Rat.floor q else Rat.floor q + 1

/-- Python f-string "%.1f" formatting, applied to the exact rational value. -/
def fmtF1 (q : ℚ) : String :=
  (if rndHalfEven (10 * q) < 0 then "-" else "") ++
    toString ((rndHalfEven (10 * q)).natAbs / 10) ++ "." ++
    toString ((rndHalfEven (10 * q)).natAbs % 10)

/-- Python size.rstrip('bb'): drop trailing 'b' characters. -/
def rstripB (s : String) : String :=
  String.mk ((s.toList.reverse.dropWhile (fun c => c == 'b')).reverse)

/-- The lookup-match rationale built by recommend_preflop. -/
def matchNote (state : HandState) : String :=
  "Lookup match for " ++ hand_class state.hero_hand ++ " at " ++ showBB state.effective_bb ++
    "bb in " ++ state.position ++ " vs " ++ vsSituation state.opener ++ "."

/-- recommend_preflop from decision_engine.py, parameterised by the
loaded range table (get_range_table's caching is modelled separately by
recommendS). -/
def recommend_preflop (table : RangeTable) (state : HandState) (meta : PyDict) :
    String × String × String :=
  match tlookup table (rKey state) with
  | none => ("Unknown", "N/A", general_concept_analysis state)
  | some (action, size) =>
      if 11/10 < compute_icm_pressure meta then
        if sLower action = "jam" then
          ("Open", "2.2bb", matchNote state ++ " Adjusted to smaller open due to ICM pressure.")
        else if sLower action = "open" then
          (action,
            (if sEndsWith size "bb" then
              match pyFloatOfStr (rstripB size) with
              | some val => fmtF1 (max 2 (val - 3/10)) ++ "bb"
              | none => size
            else size),
            matchNote state ++ " Slightly reduced open size under ICM pressure.")
        else (action, size, matchNote state)
      else if compute_icm_pressure meta < 19/20 then
        if (sLower action = "fold" ∨ sLower action = "call") ∧ state.effective_bb < 12 then
          ("Jam", "Jam", matchNote state ++ " Loosened to jam due to low ICM pressure.")
        else (action, size, matchNote state)
      else (action, size, matchNote state)

/-- A parsed tabular source: header names and data rows of cells. -/
structure CsvSource where
  header : List String
  rows : List (List String)

/-- Failure modes of load_ranges: the FileNotFoundError raised by
pd.read_csv on a missing file, and the KeyError raised by set_index when
a key column is absent. -/
inductive LoadErr where
  | missingSource
  | missingColumns
  deriving DecidableEq

/-- Cell of a row under a named column (missing cells read as empty). -/
def cellAt (header row : List String) (c : String) : String :=
  match header.findIdx? (fun h => h == c) with
  | some i => row.getD i ""
  | none => ""

/-- The index columns passed to set_index. -/
def keyCols : List String := ["position", "stack_bb_bucket", "vs_situation", "hand_class"]

/-- load_ranges from decision_engine.py. File IO is modelled by the
Option input: none models a missing file. set_index fails when a key
column is absent; duplicate keys are retained, exactly as pandas
set_index keeps duplicate index values. -/
def load_ranges (src : Option CsvSource) : Except LoadErr RangeTable :=
  match src with
  | none => .error .missingSource
  | some csv =>
      if keyCols.all (fun c => csv.header.contains c) then
        .ok (csv.rows.map (fun r =>
          (⟨cellAt csv.header r "position", cellAt csv.header r "stack_bb_bucket",
            cellAt csv.header r "vs_situation", cellAt csv.header r "hand_class"⟩,
           (cellAt csv.header r "action", cellAt csv.header r "size"))))
      else .error .missingColumns

/-- get_range_table's lazy module-level cache threaded explicitly, plus
recommend_preflop: the table is loaded at most once and recommend reads
the raw row afresh on every call. -/
def recommendS (cache : Option RangeTable) (src : Option CsvSource)
    (state : HandState) (meta : PyDict) :
    Except LoadErr ((String × String × String) × Option RangeTable) :=
  match cache with
  | some t => .ok (recommend_preflop t state meta, some t)
  | none =>
      match load_ranges src with
      | .ok t => .ok (recommend_preflop t state meta, some t)
      | .error e => .error e

/-- The six category strings hand_class can return. -/
def handCategories : List String :=
  ["premium", "strong pair", "small pair", "strong broadway", "suited connector", "weak offsuit"]

/-- Scenario metadata: 20 players left of 28 with 27 places paid
(bubble distance -7). -/
def mTight : PyDict := [("players_left", .vstr "20/28"), ("places_paid", .vint 27)]

/-- Metadata with an unlimited re-entry policy (pressure 0.9). -/
def mLoose : PyDict := [("reentry", .vstr "unlimited")]

/-- Malformed metadata: unparseable players-left and places-paid strings,
a numeric re-entry value, an empty (falsy) protection flag, and a
non-string table size. -/
def mBad : PyDict :=
  [("players_left", .vstr "abc"), ("places_paid", .vstr "soon"), ("reentry", .vint 5),
   ("bubble_protection", .vstr ""), ("table_type", .vint 6)]

/-- Metadata whose players-left string contains a slash but no parsable
count (int("n") raises, degrading the whole bubble block). -/
def mBadPL : PyDict := [("players_left", .vstr "n/a"), ("places_paid", .vint 27)]

/-- Scenario state: premium hand on the BTN at 15bb, unopened pot. -/
def sBTN : HandState :=
  { hero_hand := "AA", position := "BTN", effective_bb := 15, opener := "" }

/-- Scenario state: premium hand on the BTN at 8bb, unopened pot. -/
def sBB8 : HandState :=
  { hero_hand := "AA", position := "BTN", effective_bb := 8, opener := "" }

/-- The scenario key (BTN, 10-20, unopened, premium). -/
def rkBTN : RKey := ⟨"BTN", "10-20", "unopened", "premium"⟩

/-- Table holding only the scenario row (BTN, 10-20, unopened, premium) ↦ (Jam, Jam). -/
def tJam : RangeTable := [(rkBTN, ("Jam", "Jam"))]

/-- Table holding a raw Open row with a numeric size. -/
def tOpen : RangeTable := [(rkBTN, ("Open", "2.5bb"))]

/-- Table holding a raw Open row whose size has no "bb" suffix. -/
def tOpenPot : RangeTable := [(rkBTN, ("Open", "pot"))]

/-- Table holding a raw Fold row at the short-stack key. -/
def tFold : RangeTable := [(⟨"BTN", "<10", "unopened", "premium"⟩, ("Fold", "N/A"))]

/-- A header with all required key columns. -/
def goodHeader : List String :=
  ["position", "stack_bb_bucket", "vs_situation", "hand_class", "action", "size"]

/-- A source whose two rows share the same key tuple. -/
def dupSrc : CsvSource :=
  ⟨goodHeader,
   [["BTN", "10-20", "unopened", "premium", "Jam", "Jam"],
    ["BTN", "10-20", "unopened", "premium", "Fold", "N/A"]]⟩

/-- The table dupSrc loads into: both duplicate-keyed rows retained. -/
def dupTable : RangeTable := [(rkBTN, ("Jam", "Jam")), (rkBTN, ("Fold", "N/A"))]

/-- A source missing the stack_bb_bucket / vs_situation / hand_class columns. -/
def badSrc : CsvSource := ⟨["position", "action", "size"], [["BTN", "Jam", "Jam"]]⟩

/-! ### Evaluation lemmas for the pressure factors -/

theorem bubbleFactor_dist (m : PyDict) (n pp : Int) (h : bubbleParse m = some (some n, pp)) :
    bubbleFactor m =
      if pp > 0 then (if n - pp ≤ 6 then 6/5 else if n - pp ≤ 18 then 11/10 else 1) else 1 := by
  unfold bubbleFactor
  rw [h]

theorem bubbleFactor_raise (m : PyDict) (h : bubbleParse m = none) : bubbleFactor m = 1 := by
  unfold bubbleFactor
  rw [h]

theorem bubbleFactor_noPl (m : PyDict) (pp : Int) (h : bubbleParse m = some (none, pp)) :
    bubbleFactor m = 1 := by
  unfold bubbleFactor
  rw [h]

theorem reentryFactor_one (m : PyDict)
    (h1 : strContains (sLower (pyStr (dgetD m "reentry" (PyVal.vstr "")))) "unlimited" = false)
    (h2 : strContains (sLower (pyStr (dgetD m "reentry" (PyVal.vstr "")))) "multi" = false) :
    reentryFactor m = 1 := by
  unfold reentryFactor
  rw [h1, h2]
  rfl

theorem reentryFactor_low (m : PyDict)
    (h1 : strContains (sLower (pyStr (dgetD m "reentry" (PyVal.vstr "")))) "unlimited" = true) :
    reentryFactor m = 9/10 := by
  unfold reentryFactor
  rw [h1]
  rfl

theorem protectionFactor_one (m : PyDict) (h : pyTruthyOpt (dget m "bubble_protection") = false) :
    protectionFactor m = 1 := by
  unfold protectionFactor
  rw [h]
  rfl

theorem bountyFactor_one (m : PyDict) (h1 : pyTruthyOpt (dget m "bounty_flag") = false)
    (h2 : pyTruthyOpt (dget m "is_pko") = false) : bountyFactor m = 1 := by
  unfold bountyFactor
  rw [h1, h2]
  rfl

theorem tableTypeFactor_absent (m : PyDict) (h : dget m "table_type" = none) :
    tableTypeFactor m = 1 := by
  unfold tableTypeFactor
  rw [h]

theorem tableTypeFactor_nonstr (m : PyDict) (n : Int) (h : dget m "table_type" = some (PyVal.vint n)) :
    tableTypeFactor m = 1 := by
  unfold tableTypeFactor
  rw [h]

theorem pressure_factors (m : PyDict) (hm : m.isEmpty = false) :
    compute_icm_pressure m =
      bubbleFactor m * reentryFactor m * protectionFactor m * bountyFactor m * tableTypeFactor m := by
  unfold compute_icm_pressure
  rw [hm]
  rfl

theorem pressure_mTight : compute_icm_pressure mTight = 6/5 := by
  rw [pressure_factors mTight rfl, bubbleFactor_dist mTight 20 27 rfl,
    reentryFactor_one mTight rfl rfl, protectionFactor_one mTight rfl,
    bountyFactor_one mTight rfl rfl, tableTypeFactor_absent mTight rfl]
  norm_num

theorem pressure_mLoose : compute_icm_pressure mLoose = 9/10 := by
  rw [pressure_factors mLoose rfl, bubbleFactor_noPl mLoose 0 rfl,
    reentryFactor_low mLoose rfl, protectionFactor_one mLoose rfl,
    bountyFactor_one mLoose rfl rfl, tableTypeFactor_absent mLoose rfl]
  norm_num

theorem pressure_mBad : compute_icm_pressure mBad = 1 := by
  rw [pressure_factors mBad rfl, bubbleFactor_raise mBad rfl,
    reentryFactor_one mBad rfl rfl, protectionFactor_one mBad rfl,
    bountyFactor_one mBad rfl rfl, tableTypeFactor_nonstr mBad 6 rfl]
  norm_num

/-! ### Positivity of the factors -/

theorem bubbleFactor_pos (m : PyDict) : 0 < bubbleFactor m := by
  unfold bubbleFactor
  rcases bubbleParse m with _ | ⟨_ | n, pp⟩
  · norm_num
  · norm_num
  · dsimp only
    repeat' split
    all_goals norm_num

theorem reentryFactor_pos (m : PyDict) : 0 < reentryFactor m := by
  unfold reentryFactor
  repeat' split
  all_goals norm_num

theorem protectionFactor_pos (m : PyDict) : 0 < protectionFactor m := by
  unfold protectionFactor
  repeat' split
  all_goals norm_num

theorem bountyFactor_pos (m : PyDict) : 0 < bountyFactor m := by
  unfold bountyFactor
  repeat' split
  all_goals norm_num

theorem tableTypeFactor_pos (m : PyDict) : 0 < tableTypeFactor m := by
  unfold tableTypeFactor
  repeat' split
  all_goals norm_num

/-! ### Evaluation helpers for recommend_preflop and the formatter -/

theorem recommend_jam_eval (table : RangeTable) (state : HandState) (meta : PyDict) (size : String)
    (h : tlookup table (rKey state) = some ("Jam", size))
    (hp : 11/10 < compute_icm_pressure meta) :
    recommend_preflop table state meta =
      ("Open", "2.2bb", matchNote state ++ " Adjusted to smaller open due to ICM pressure.") := by
  simp only [recommend_preflop, h]
  rw [if_pos hp, if_pos (show sLower "Jam" = "jam" from rfl)]

theorem gcaBase_len (bucket : String) : 0 < (gcaBase bucket).length := by
  unfold gcaBase
  repeat' split
  all_goals decide

theorem gca_ne_empty (state : HandState) : general_concept_analysis state ≠ "" := by
  intro hcon
  have hlen := congrArg String.length hcon
  unfold general_concept_analysis at hlen
  simp only [String.length_append] at hlen
  rw [show String.length " " = 1 from rfl, show String.length "" = 0 from rfl] at hlen
  have hb := gcaBase_len (classify_stack_bucket state.effective_bb)
  omega

theorem hcNonPair_mem (rp : String) : hcNonPair rp ∈ handCategories := by
  unfold hcNonPair
  repeat' split
  all_goals decide

theorem hand_class_mem (hand : String) : hand_class hand ∈ handCategories := by
  simp only [hand_class]
  split
  · repeat' split
    all_goals first
    | exact hcNonPair_mem _
    | decide
  · exact hcNonPair_mem _

theorem rndHalfEven_intCast (n : ℤ) : rndHalfEven ((n : ℚ)) = n := by
  unfold rndHalfEven
  rw [show Rat.floor ((n : ℚ)) = n by rw [Rat.floor_def']; simp]
  rw [if_pos (show ((n : ℚ)) - ((n : ℤ) : ℚ) < 1/2 by rw [sub_self]; norm_num)]

theorem fmtF1_22 : fmtF1 ((11 : ℚ)/5) = "2.2" := by
  unfold fmtF1
  rw [show (10 : ℚ) * (11/5) = ((22 : ℤ) : ℚ) by norm_num, rndHalfEven_intCast]
  rfl

theorem pyFloat_25 : pyFloatOfStr "2.5" = some (5/2) := by
  show some ((digitsToNat ['2'] : ℚ) + (digitsToNat ['5'] : ℚ) / (10 : ℚ) ^ (1 : ℕ)) = some (5/2)
  rw [show digitsToNat ['2'] = 2 from rfl, show digitsToNat ['5'] = 5 from rfl]
  norm_num [Option.some.injEq]

/-! ### Claims -/

/-- C1 (counterexample): for metadata {players_left: "20/28", places_paid: 27}
(bubble distance -7) the pressure is not 1.0 and the (Jam, Jam) row is not
returned unchanged: a negative distance falls into the `distance <= 6` branch
and contributes the x1.2 multiplier, so the action is downgraded. -/
theorem C1_counterexample :
    compute_icm_pressure mTight ≠ 1 ∧ (recommend_preflop tJam sBTN mTight).1 ≠ "Jam" := by
  constructor
  · rw [pressure_mTight]
    norm_num
  · rw [recommend_jam_eval tJam sBTN mTight "Jam" rfl (by rw [pressure_mTight]; norm_num)]
    decide

/-- C1 (amended): when the bubble distance is missing or undefined — the
players-left key is absent, or its value fails to parse (as in "n/a") — the
bubble factor is 1 (no multiplier); but a *negative* distance does contribute
the x1.20 multiplier, so the scenario metadata {players_left: "20/28",
places_paid: 27} gives pressure 1.2 and the (Jam, Jam) scenario row is
returned as ("Open", "2.2bb", ...) rather than unchanged. -/
theorem C1_bubble_neutral_amended :
    (∀ meta : PyDict, dget meta "players_left" = none → bubbleFactor meta = 1) ∧
    bubbleFactor mBadPL = 1 ∧
    compute_icm_pressure mTight = 6/5 ∧
    recommend_preflop tJam sBTN mTight =
      ("Open", "2.2bb", matchNote sBTN ++ " Adjusted to smaller open due to ICM pressure.") := by
  refine ⟨fun meta h => ?_, bubbleFactor_raise mBadPL rfl, pressure_mTight,
    recommend_jam_eval tJam sBTN mTight "Jam" rfl (by rw [pressure_mTight]; norm_num)⟩
  have hbp : bubbleParse meta =
      (pyInt (dgetD meta "places_paid" (PyVal.vint 0))).map (fun pp => (none, pp)) := by
    unfold bubbleParse
    rw [h]
    rfl
  unfold bubbleFactor
  rw [hbp]
  cases pyInt (dgetD meta "places_paid" (PyVal.vint 0)) <;> rfl

/-- C1 (witness): the amended neutrality applied to a concrete metadata
mapping with no players-left key. -/
theorem C1_witness : bubbleFactor mLoose = 1 :=
  C1_bubble_neutral_amended.1 mLoose rfl

/-- C2 (counterexample): hand_class is not symmetric under rank-pair
reversal — "KQo" and "QKo" land in different categories. -/
theorem C2_counterexample : hand_class "QKo" ≠ hand_class "KQo" := by decide

/-- C2 (amended): hand_class is total — every input yields one of the six
fixed categories — but it is not symmetric under rank-pair reversal: only
the connector sets are checked in both orders, and hand_class "KQo" is
"strong broadway" while hand_class "QKo" is "weak offsuit". -/
theorem C2_hand_class_amended :
    (∀ hand : String, hand_class hand ∈ handCategories) ∧
    hand_class "KQo" = "strong broadway" ∧ hand_class "QKo" = "weak offsuit" :=
  ⟨hand_class_mem, rfl, rfl⟩

/-- C3 (counterexample): a source with two rows sharing the key
(BTN, 10-20, unopened, premium) loads successfully — duplicate keys are not
rejected at load time. -/
theorem C3_counterexample :
    load_ranges (some dupSrc) = Except.ok dupTable ∧ dupTable.map Prod.fst = [rkBTN, rkBTN] :=
  ⟨rfl, rfl⟩

/-- C3 (amended): loading fails when the tabular source is missing or lacks
a required key column, but duplicate keys are NOT rejected — both
duplicate-keyed rows are retained in the loaded table. -/
theorem C3_load_amended :
    load_ranges none = Except.error LoadErr.missingSource ∧
    load_ranges (some badSrc) = Except.error LoadErr.missingColumns ∧
    load_ranges (some dupSrc) = Except.ok dupTable :=
  ⟨rfl, rfl, rfl⟩

/-- C4: whenever the derived key is absent from the table, recommend returns
exactly ("Unknown", "N/A", narrative) without any other outcome, and the
narrative fallback text is non-empty. -/
theorem C4_fallback (table : RangeTable) (state : HandState) (meta : PyDict)
    (h : tlookup table (rKey state) = none) :
    recommend_preflop table state meta = ("Unknown", "N/A", general_concept_analysis state) ∧
    general_concept_analysis state ≠ "" := by
  refine ⟨?_, gca_ne_empty state⟩
  simp only [recommend_preflop, h]

/-- C4 (witness): the fallback on an empty table. -/
theorem C4_witness :
    recommend_preflop ([] : RangeTable) sBTN ([] : PyDict) =
      ("Unknown", "N/A", general_concept_analysis sBTN) ∧
    general_concept_analysis sBTN ≠ "" :=
  C4_fallback [] sBTN [] rfl

/-- C5: on a table hit whose raw action is "Jam", pressure above 1.1 always
yields ("Open", "2.2bb"), regardless of position, stack bucket or hand
class. -/
theorem C5_jam_tightens (table : RangeTable) (state : HandState) (meta : PyDict) (size : String)
    (h : tlookup table (rKey state) = some ("Jam", size))
    (hp : 11/10 < compute_icm_pressure meta) :
    recommend_preflop table state meta =
      ("Open", "2.2bb", matchNote state ++ " Adjusted to smaller open due to ICM pressure.") :=
  recommend_jam_eval table state meta size h hp

/-- C5 (witness): the (Jam, Jam) scenario row under pressure 1.2. -/
theorem C5_witness :
    recommend_preflop tJam sBTN mTight =
      ("Open", "2.2bb", matchNote sBTN ++ " Adjusted to smaller open due to ICM pressure.") :=
  C5_jam_tightens tJam sBTN mTight "Jam" rfl (by rw [pressure_mTight]; norm_num)

/-- C6: on a table hit (Open, "<v>bb") with a parsing numeric prefix,
pressure above 1.1 returns the size max(2.0, v - 0.3) formatted to one
decimal with the "bb" suffix, and the tightened value never drops below
2.0bb. -/
theorem C6_open_size_tightened (table : RangeTable) (state : HandState) (meta : PyDict)
    (size : String) (v : ℚ)
    (h : tlookup table (rKey state) = some ("Open", size))
    (hbb : sEndsWith size "bb" = true)
    (hv : pyFloatOfStr (rstripB size) = some v)
    (hp : 11/10 < compute_icm_pressure meta) :
    (recommend_preflop table state meta).2.1 = fmtF1 (max 2 (v - 3/10)) ++ "bb" ∧
    (2 : ℚ) ≤ max 2 (v - 3/10) := by
  refine ⟨?_, le_max_left _ _⟩
  simp only [recommend_preflop, h]
  rw [if_pos hp, if_neg (show ¬ sLower "Open" = "jam" by decide),
    if_pos (show sLower "Open" = "open" from rfl), if_pos hbb]
  simp only [hv]

/-- C6 (witness): the row (Open, "2.5bb") under pressure 1.2 yields
"2.2bb". -/
theorem C6_witness :
    (recommend_preflop tOpen sBTN mTight).2.1 = fmtF1 (max 2 ((5/2 : ℚ) - 3/10)) ++ "bb" ∧
    (2 : ℚ) ≤ max 2 ((5/2 : ℚ) - 3/10) ∧
    fmtF1 (max 2 ((5/2 : ℚ) - 3/10)) = "2.2" := by
  have h := C6_open_size_tightened tOpen sBTN mTight "2.5bb" (5/2) rfl rfl
    (by rw [show rstripB "2.5bb" = "2.5" from rfl]; exact pyFloat_25)
    (by rw [pressure_mTight]; norm_num)
  refine ⟨h.1, h.2, ?_⟩
  rw [show max 2 ((5/2 : ℚ) - 3/10) = 11/5 by norm_num]
  exact fmtF1_22

/-- C7: under pressure below 0.95, a raw "Fold" or "Call" row with
effective stack strictly below 12bb upgrades to ("Jam", "Jam") with the
loosening note; every other raw action/stack combination is returned
unchanged by the loosening rule. -/
theorem C7_loosen_short_stacks (table : RangeTable) (state : HandState) (meta : PyDict)
    (action size : String)
    (h : tlookup table (rKey state) = some (action, size))
    (henum : action ∈ (["Open", "Jam", "Fold", "Call", "Raise"] : List String))
    (hp : compute_icm_pressure meta < 19/20) :
    ((action = "Fold" ∨ action = "Call") ∧ state.effective_bb < 12 →
      recommend_preflop table state meta =
        ("Jam", "Jam", matchNote state ++ " Loosened to jam due to low ICM pressure.")) ∧
    (¬ ((action = "Fold" ∨ action = "Call") ∧ state.effective_bb < 12) →
      recommend_preflop table state meta = (action, size, matchNote state)) := by
  have hnot : ¬ (11/10 < compute_icm_pressure meta) := by
    intro hcon
    have hlt : (11/10 : ℚ) < 19/20 := lt_trans hcon hp
    norm_num at hlt
  simp only [recommend_preflop, h]
  rw [if_neg hnot, if_pos hp]
  constructor
  · rintro ⟨hac, hbb⟩
    have hc : (sLower action = "fold" ∨ sLower action = "call") ∧ state.effective_bb < 12 := by
      refine ⟨?_, hbb⟩
      rcases hac with h1 | h1 <;> subst h1
      · exact Or.inl rfl
      · exact Or.inr rfl
    rw [if_pos hc]
  · intro hno
    have hc : ¬ ((sLower action = "fold" ∨ sLower action = "call") ∧ state.effective_bb < 12) := by
      rintro ⟨hl, hbb⟩
      refine hno ⟨?_, hbb⟩
      simp only [List.mem_cons, List.mem_singleton, List.not_mem_nil, or_false] at henum
      rcases henum with h1 | h1 | h1 | h1 | h1 <;> subst h1
      · rcases hl with h2 | h2 <;> exact absurd h2 (by decide)
      · rcases hl with h2 | h2 <;> exact absurd h2 (by decide)
      · exact Or.inl rfl
      · exact Or.inr rfl
      · rcases hl with h2 | h2 <;> exact absurd h2 (by decide)
    rw [if_neg hc]

/-- C7 (witness): the scenario row (Fold, N/A) at 8bb under pressure 0.9
upgrades to a jam. -/
theorem C7_witness :
    recommend_preflop tFold sBB8 mLoose =
      ("Jam", "Jam", matchNote sBB8 ++ " Loosened to jam due to low ICM pressure.") :=
  (C7_loosen_short_stacks tFold sBB8 mLoose "Fold" "N/A" rfl (by decide)
      (by rw [pressure_mLoose]; norm_num)).1
    ⟨Or.inl rfl, by show (8 : ℚ) < 12; norm_num⟩

/-- C8: over the same loaded strategy table, a second call of recommend
with identical state and metadata yields the identical output and leaves
the cache unchanged — adjustments are recomputed from the raw table row
and never compound across calls. -/
theorem C8_idempotent (cache : Option RangeTable) (src : Option CsvSource)
    (state : HandState) (meta : PyDict) (out : String × String × String)
    (st2 : Option RangeTable)
    (h : recommendS cache src state meta = Except.ok (out, st2)) :
    recommendS st2 src state meta = Except.ok (out, st2) := by
  cases cache with
  | some t =>
      simp only [recommendS, Except.ok.injEq, Prod.mk.injEq] at h
      obtain ⟨h1, h2⟩ := h
      subst h1
      subst h2
      rfl
  | none =>
      cases hl : load_ranges src with
      | ok t =>
          simp only [recommendS, hl, Except.ok.injEq, Prod.mk.injEq] at h
          obtain ⟨h1, h2⟩ := h
          subst h1
          subst h2
          rfl
      | error e =>
          simp only [recommendS, hl] at h
          exact Except.noConfusion h

/-- C8 (witness): a call against a warm cache returns the same output and
cache, so an immediate second call is identical. -/
theorem C8_witness :
    recommendS (some tJam) none sBTN mTight =
      Except.ok (recommend_preflop tJam sBTN mTight, some tJam) :=
  C8_idempotent (some tJam) none sBTN mTight (recommend_preflop tJam sBTN mTight) (some tJam) rfl

/-- C9: the pressure computation is total and positive on every metadata
mapping; the empty mapping gives exactly 1, and a mapping whose every
signal is malformed (or of the wrong type) also degrades to 1, each bad
signal contributing no multiplier. -/
theorem C9_pressure_total :
    (∀ meta : PyDict, 0 < compute_icm_pressure meta) ∧
    compute_icm_pressure ([] : PyDict) = 1 ∧
    compute_icm_pressure mBad = 1 := by
  refine ⟨fun meta => ?_, rfl, pressure_mBad⟩
  unfold compute_icm_pressure
  split
  · norm_num
  · exact mul_pos (mul_pos (mul_pos (mul_pos (bubbleFactor_pos meta) (reentryFactor_pos meta))
      (protectionFactor_pos meta)) (bountyFactor_pos meta)) (tableTypeFactor_pos meta)

/-- C10: on a table hit (Open, size) whose size does not parse as a
numeric "bb" string, pressure above 1.1 leaves the size unchanged while
the rationale still gains the "Slightly reduced open size under ICM
pressure." note. -/
theorem C10_note_without_adjustment (table : RangeTable) (state : HandState) (meta : PyDict)
    (size : String)
    (h : tlookup table (rKey state) = some ("Open", size))
    (hp : 11/10 < compute_icm_pressure meta)
    (hbad : sEndsWith size "bb" = false ∨ pyFloatOfStr (rstripB size) = none) :
    recommend_preflop table state meta =
      ("Open", size, matchNote state ++ " Slightly reduced open size under ICM pressure.") := by
  simp only [recommend_preflop, h]
  rw [if_pos hp, if_neg (show ¬ sLower "Open" = "jam" by decide),
    if_pos (show sLower "Open" = "open" from rfl)]
  rcases hbad with hb | hb
  · rw [if_neg (by rw [hb]; exact Bool.false_ne_true)]
  · by_cases he : sEndsWith size "bb" = true
    · rw [if_pos he]
      simp only [hb]
    · rw [if_neg he]

/-- C10 (witness): the row (Open, "pot") under pressure 1.2 keeps size
"pot" yet gains the reduction note. -/
theorem C10_witness :
    recommend_preflop tOpenPot sBTN mTight =
      ("Open", "pot", matchNote sBTN ++ " Slightly reduced open size under ICM pressure.") :=
  C10_note_without_adjustment tOpenPot sBTN mTight "pot" rfl
    (by rw [pressure_mTight]; norm_num) (Or.inl rfl)
